import Mathlib

/-!
Verification of the Website Time Tracker service worker (background script).

This file gives a shallow embedding of the session-tracking core of the
extension's service worker and proves/refutes the specification claims about
it.  Pure helpers (roundMs, shouldTrack, hostnameFromUrl, getSettings) are
translated directly; the stateful tracker (endSession, persistRunningTotal,
stopTracking, startTracking and the pending-session recovery step of
handleActiveTab) is translated as explicit state passing over an in-memory
state record (the module-level mutable variables) and a storage record
(chrome.storage.local).  Wall-clock readings (Date.now()) and the current
date key are inputs to each step, as are the settings fetched by the
operation.  The asynchronous endSession is split at its first await point
into a synchronous prefix (which clears the in-memory session) and a
completion step, which is exactly what the coalescing argument of the
design rests on.
-/

namespace TimeTracker

/-! JavaScript-like dynamic values, used to model what chrome.storage may
hold under the settings key (arbitrarily malformed) and the elements of the
excludeDomains array. -/

inductive JSVal where
  | null
  | undefined
  | bool (b : Bool)
  | num (n : Int)
  | str (s : String)
  | arr (xs : List JSVal)
  | obj (fields : List (String × JSVal))

/-- Truthiness test of JavaScript, restricted to the values of JSVal. -/
def isFalsy : JSVal → Bool
  | .null => true
  | .undefined => true
  | .bool b => !b
  | .num n => n == 0
  | .str s => s == ""
  | .arr _ => false
  | .obj _ => false

/-- Property access v[field]: undefined on non-objects and missing keys. -/
def jsGet (v : JSVal) (field : String) : JSVal :=
  match v with
  | .obj fs => (fs.lookup field).getD .undefined
  | _ => .undefined

/-- Test for the exact boolean true (JavaScript strict equality with true). -/
def jsIsTrue : JSVal → Bool
  | .bool true => true
  | _ => false

/-- Array.isArray view: the element list when the value is an array. -/
def jsArrVal : JSVal → Option (List JSVal)
  | .arr xs => some xs
  | _ => none

/-- Typeof-number view: the numeric value when the value is a number. -/
def jsNumVal : JSVal → Option Int
  | .num n => some n
  | _ => none

/-- Array.prototype.includes specialised to looking for a string: strict
equality of a string with a non-string element is false. -/
def jsIncludesStr (xs : List JSVal) (s : String) : Bool :=
  xs.any fun v =>
    match v with
    | .str t => t == s
    | _ => false

/-! Settings. -/

def DEFAULT_GRANULARITY_MS : Int := 1000

structure Settings where
  excludeDomains : List JSVal
  timeGranularityMs : Int
  keepIncognitoData : Bool

/-- Effective settings object: models raw.settings || {} after
chrome.storage.local.get({ settings: {} }); stored = none means the key is
absent, so the get default {} applies. -/
def effectiveSettings (stored : Option JSVal) : JSVal :=
  let raw := stored.getD (JSVal.obj [])
  if isFalsy raw then JSVal.obj [] else raw

/-- Translation of getSettings: sanitises whatever is stored into a record
with an array, a number and an exact-true boolean. -/
def getSettings (stored : Option JSVal) : Settings :=
  let s := effectiveSettings stored
  { excludeDomains :=
      match jsGet s "excludeDomains" with
      | .arr xs => xs
      | _ => []
    timeGranularityMs :=
      match jsGet s "timeGranularityMs" with
      | .num n => n
      | _ => DEFAULT_GRANULARITY_MS
    keepIncognitoData := jsIsTrue (jsGet s "keepIncognitoData") }

/-! Pure helpers of the tracker. -/

/-- Translation of shouldTrack(hostname, excludeDomains); the argument is
an Option because the call sites may pass a null hostname, and the empty
string is falsy in the JavaScript guard. -/
def shouldTrack (hostname : Option String) (excludeDomains : List JSVal) : Bool :=
  match hostname with
  | none => false
  | some h => if h = "" then false else !(jsIncludesStr excludeDomains h)

/-- Translation of roundMs(ms, granularityMs): Math.floor(ms/g)*g is floor
division on integers, and both the !granularityMs guard (g = 0) and the
g <= 0 guard collapse to g ≤ 0 over Int. -/
def roundMs (ms granularityMs : Int) : Int :=
  if granularityMs ≤ 0 then ms else (Int.fdiv ms granularityMs) * granularityMs

/-! Domain classification. -/

/-- Prefix test on character lists (the model of String.prototype.startsWith). -/
def startsWithChars : List Char → List Char → Bool
  | [], _ => true
  | _ :: _, [] => false
  | p :: ps, c :: cs => p == c && startsWithChars ps cs

/-- Prefix test on strings: strStartsWith s pat is true when pat is a
prefix of s. -/
def strStartsWith (s pat : String) : Bool :=
  startsWithChars pat.data s.data

/-- Internal/browser-scheme test of hostnameFromUrl, grouping its four
startsWith guards. -/
def isInternalUrl (url : String) : Bool :=
  strStartsWith url "chrome://" || strStartsWith url "chrome-extension://" ||
  strStartsWith url "edge://" || strStartsWith url "about:"

def isSchemeChar (c : Char) : Bool :=
  c.isAlphanum || c == '+' || c == '-' || c == '.'

/-- Scheme recognition helper: after the initial letter, consume scheme
characters up to the colon; none when the colon is never reached. -/
def splitSchemeAux : List Char → Option (List Char)
  | [] => none
  | c :: cs => if c == ':' then some cs else if isSchemeChar c then splitSchemeAux cs else none

/-- Scheme recognition: an ASCII letter followed by scheme characters and a
colon; returns the characters after the colon. -/
def splitScheme : List Char → Option (List Char)
  | [] => none
  | c :: cs => if c.isAlpha then splitSchemeAux cs else none

/-- Take characters up to (excluding) the first occurrence of any stop
character. -/
def takeUntil (stops : List Char) : List Char → List Char
  | [] => []
  | c :: cs => if stops.contains c then [] else c :: takeUntil stops cs

/-- Characters after the last at-sign (drops any userinfo of an authority);
the whole list when there is no at-sign. -/
def lastSegmentAfterAt (cs : List Char) : List Char :=
  cs.foldl (fun acc c => if c == '@' then [] else acc ++ [c]) []

/-- Modelled from the spec: the browser's URL constructor (new URL(url)),
which is host-environment code not present in the repository.  The spec
says classification returns null for URLs that fail to parse and otherwise
uses the parsed hostname.  This model accepts an absolute URL with a valid
scheme; a hierarchical URL (scheme://...) yields the authority's host with
userinfo and port stripped (IPv6 bracket syntax is outside the model), and
any other absolute URL yields an empty hostname, as the browser does for
opaque paths.  A string with no valid scheme fails to parse. -/
def parseUrlHost (url : String) : Option String :=
  match splitScheme url.data with
  | none => none
  | some rest =>
    match rest with
    | '/' :: '/' :: rest2 =>
      let auth := takeUntil ['/', '?', '#'] rest2
      let hostPort := lastSegmentAfterAt auth
      some (String.mk (takeUntil [':'] hostPort))
    | _ => some ""

/-- Translation of hostname.replace(/^www\./, ''): strips one leading
www. prefix. -/
def stripWww (h : String) : String :=
  if strStartsWith h "www." then String.mk (h.data.drop 4) else h

/-- Translation of hostnameFromUrl(url): null for falsy or internal URLs,
null on parse failure, otherwise the hostname with a leading www. stripped;
the || null turns an empty result into null. -/
def hostnameFromUrl (url : String) : Option String :=
  if url = "" then none
  else if isInternalUrl url then none
  else
    match parseUrlHost url with
    | none => none
    | some h =>
      let h' := stripWww h
      if h' = "" then none else some h'

/-! Storage model (chrome.storage.local). -/

structure TimelineBlock where
  start : Int
  «end» : Int
  domain : String
deriving Repr, DecidableEq

/-- Day record: per-domain cumulative milliseconds and the timeline blocks.
The domain map days[key].domains is modelled as a total function with
default 0: the source always creates a { ms: 0 } entry before adding, so
the observable milliseconds agree. -/
structure DayRecord where
  domains : String → Int
  timeline : List TimelineBlock

def emptyDay : DayRecord :=
  { domains := fun _ => 0, timeline := [] }

/-- Pointwise increment of a domain's cumulative total, the model of
day.domains[d].ms += delta after ensuring the entry exists. -/
def addMs (f : String → Int) (d : String) (delta : Int) : String → Int :=
  fun d' => if d' = d then f d' + delta else f d'

structure CurrentSession where
  domain : String
  start : Int
deriving Repr, DecidableEq

/-- Durable pending-session marker (_pendingSession).  Fields are optional
because a recovered marker may lack any of them; startTracking writes all
of them. -/
structure PendingSession where
  domain : Option String
  start : Option Int
  persistedAt : Option Int
  windowId : Option Int
  wasIncognito : Option Bool
deriving Repr, DecidableEq

/-- Storage: the days map (total function with empty-day default, matching
the data.days || {} and missing-key initialisation of the source), the
currentSession live indicator and the _pendingSession recovery marker. -/
structure Storage where
  days : String → DayRecord
  currentSession : Option CurrentSession
  pendingSession : Option PendingSession

/-! In-memory state of the service worker (the module-level variables).
The reconciler-only variables lastFocusedWindowId, incognitoWindowIds and
isIdle are not consulted by any claim and are omitted. -/

/-- Resolution of a session captured by the synchronous prefix of
endSession: the local variables its asynchronous remainder uses.  A value
of this type also stands for the pending promise stored in pendingWrite,
identified by the session it will persist. -/
structure ResolvedSession where
  domain : String
  start : Int
  persistedAt : Option Int
  wasIncognito : Bool
deriving Repr, DecidableEq

structure MemState where
  lastDomain : Option String
  lastStartTimestamp : Option Int
  lastPersistedAt : Option Int
  lastTabId : Option Int
  lastTabIncognito : Bool
  lastTrackedWindowId : Option Int
  pendingWrite : Option ResolvedSession
deriving Repr, DecidableEq

/-- Override argument of endSession; tabIdToCheck distinguishes undefined
(outer none) from null (some none) because the source tests it with
!== undefined, and it is captured but never read afterwards. -/
structure SessionOverride where
  domain : Option String
  start : Option Int
  persistedAt : Option Int
  tabIdToCheck : Option (Option Int)
  wasIncognito : Option Bool
deriving Repr, DecidableEq

/-- Result of chrome.tabs.get for the tab being started (none when the
lookup failed). -/
structure TabInfo where
  incognito : Bool
  windowId : Option Int
deriving Repr, DecidableEq

/-! The tracker operations. -/

/-- Synchronous prefix of endSession(override), up to its first await:
resolves the session from the override or the globals, and if a session was
claimed clears all six session variables so a concurrent caller sees no
session.  Returns the resolved session the asynchronous remainder will
persist, or none when endSession returns at the domain/start null check. -/
def endSessionSync (mem : MemState) (ov : Option SessionOverride) :
    MemState × Option ResolvedSession :=
  let o : Option SessionOverride :=
    match ov with
    | some o => if o.domain.isSome && o.start.isSome then some o else none
    | none => none
  let domain : Option String :=
    match o with
    | some o => o.domain
    | none => mem.lastDomain
  let start : Option Int :=
    match o with
    | some o => o.start
    | none => mem.lastStartTimestamp
  let persistedAt : Option Int :=
    match o with
    | some o => o.persistedAt
    | none => mem.lastPersistedAt
  let wasIncognito : Bool :=
    match o with
    | some o =>
      match o.wasIncognito with
      | some b => b
      | none => mem.lastTabIncognito
    | none => mem.lastTabIncognito
  match domain, start with
  | some d, some s =>
    ({ mem with
        lastDomain := none, lastStartTimestamp := none, lastPersistedAt := none,
        lastTabId := none, lastTabIncognito := false, lastTrackedWindowId := none },
     some { domain := d, start := s, persistedAt := persistedAt, wasIncognito := wasIncognito })
  | _, _ => (mem, none)

/-- Asynchronous remainder of endSession, from the settings fetch on:
re-validates trackability, discards an incognito session when retention is
off, otherwise adds the rounded increment since the captured persist point
to the day's total, appends the exact start-to-now timeline block and
clears both durable markers.  The settings, wall clock and date key are the
values the operation observes. -/
def endSessionFinish (r : ResolvedSession) (settings : Settings) (now : Int)
    (key : String) (mem : MemState) (st : Storage) : MemState × Storage :=
  if !(shouldTrack (some r.domain) settings.excludeDomains) then (mem, st)
  else if !settings.keepIncognitoData && r.wasIncognito then
    ({ mem with pendingWrite := none }, st)
  else
    let increment := roundMs (now - (r.persistedAt.getD r.start)) settings.timeGranularityMs
    let day := st.days key
    let domains' := if increment > 0 then addMs day.domains r.domain increment else day.domains
    let day' : DayRecord :=
      { domains := domains'
        timeline := day.timeline ++ [{ start := r.start, «end» := now, domain := r.domain }] }
    ({ mem with pendingWrite := none },
     { st with
        days := fun k => if k = key then day' else st.days k,
        currentSession := none, pendingSession := none })

/-- Whole endSession(override) as one step (the recovery path awaits it
atomically). -/
def endSession (ov : Option SessionOverride) (settings : Settings) (now : Int)
    (key : String) (mem : MemState) (st : Storage) : MemState × Storage :=
  match endSessionSync mem ov with
  | (mem', some r) => endSessionFinish r settings now key mem' st
  | (mem', none) => (mem', st)

/-- Translation of persistRunningTotal (the periodic flush): no-op without
a session; on an untrackable domain clears the four session variables it
names and the live indicator; skips persisting unpersistable incognito
time; otherwise adds the rounded delta since lastPersistedAt (or start) to
the day's total and advances lastPersistedAt — note that the delta ≤ 0
branch also advances lastPersistedAt, exactly as the source does. -/
def persistRunningTotal (mem : MemState) (settings : Settings) (now : Int)
    (key : String) (st : Storage) : MemState × Storage :=
  match mem.lastDomain, mem.lastStartTimestamp with
  | some d, some s =>
    if !(shouldTrack (some d) settings.excludeDomains) then
      ({ mem with
          lastDomain := none, lastStartTimestamp := none,
          lastPersistedAt := none, lastTabId := none },
       { st with currentSession := none })
    else if !settings.keepIncognitoData && mem.lastTabIncognito then (mem, st)
    else
      let fromT := mem.lastPersistedAt.getD s
      let delta := roundMs (now - fromT) settings.timeGranularityMs
      if delta ≤ 0 then ({ mem with lastPersistedAt := some now }, st)
      else
        let day := st.days key
        let day' : DayRecord := { day with domains := addMs day.domains d delta }
        ({ mem with lastPersistedAt := some now, pendingWrite := none },
         { st with days := fun k => if k = key then day' else st.days k })
  | _, _ => (mem, st)

/-- Return value of stopTracking: null with no session, the existing
pending promise, or a freshly started endSession promise. -/
inductive StopResult where
  | noSession
  | alreadyPending (r : ResolvedSession)
  | started (r : ResolvedSession)
deriving Repr, DecidableEq

/-- Translation of stopTracking: returns null when no session is active;
returns the in-flight pendingWrite when one exists; otherwise captures the
full session as an override, runs the synchronous prefix of endSession
(which clears the in-memory session) and records the new in-flight
operation in pendingWrite. -/
def stopTracking (mem : MemState) : MemState × StopResult :=
  match mem.lastDomain, mem.lastStartTimestamp with
  | some _, some _ =>
    match mem.pendingWrite with
    | some r => (mem, .alreadyPending r)
    | none =>
      let ov : SessionOverride :=
        { domain := mem.lastDomain, start := mem.lastStartTimestamp,
          persistedAt := mem.lastPersistedAt,
          tabIdToCheck := some mem.lastTabId,
          wasIncognito := some mem.lastTabIncognito }
      match endSessionSync mem (some ov) with
      | (mem', some r) => ({ mem' with pendingWrite := some r }, .started r)
      | (mem', none) => (mem', .noSession)
  | _, _ => (mem, .noSession)

/-- Completion of a stop started by stopTracking: the endSession remainder
followed by the finally handler that nulls pendingWrite. -/
def stopTrackingFinish (r : ResolvedSession) (settings : Settings) (now : Int)
    (key : String) (mem : MemState) (st : Storage) : MemState × Storage :=
  let res := endSessionFinish r settings now key mem st
  ({ res.1 with pendingWrite := none }, res.2)

/-- Translation of startTracking(hostname, tabId): no-op when the hostname
is untrackable; otherwise installs the new session with start = persistedAt
= now, resolves the tab's incognito flag and window (tabInfo is the
chrome.tabs.get result, none on failure; both default when tabId is null,
and lastTrackedWindowId is only assigned in the tabId branch), and durably
writes the live currentSession indicator and the _pendingSession marker. -/
def startTracking (mem : MemState) (settings : Settings) (hostname : String)
    (tabId : Option Int) (tabInfo : Option TabInfo) (now : Int) (st : Storage) :
    MemState × Storage :=
  if !(shouldTrack (some hostname) settings.excludeDomains) then (mem, st)
  else
    let incog : Bool :=
      match tabId with
      | some _ =>
        match tabInfo with
        | some t => t.incognito
        | none => false
      | none => false
    let twid : Option Int :=
      match tabId with
      | some _ =>
        match tabInfo with
        | some t => t.windowId
        | none => none
      | none => mem.lastTrackedWindowId
    let pending : PendingSession :=
      { domain := some hostname, start := some now, persistedAt := some now,
        windowId := twid, wasIncognito := some incog }
    ({ mem with
        lastDomain := some hostname, lastStartTimestamp := some now,
        lastPersistedAt := some now, lastTabId := tabId,
        lastTabIncognito := incog, lastTrackedWindowId := twid },
     { st with
        currentSession := some { domain := hostname, start := now },
        pendingSession := some pending })

/-- Translation of the crash-recovery clause at the top of handleActiveTab:
with no in-memory session, a durable pending marker whose window differs
from the current one and no longer exists is ended through endSession with
the captured snapshot (undefined tabIdToCheck; a missing wasIncognito flag
treated as incognito), after which the marker is cleared.
pendingWindowGone is the result of the chrome.windows.get probe. -/
def handleActiveTabRecovery (mem : MemState) (windowId : Int)
    (pendingWindowGone : Bool) (settings : Settings) (now : Int) (key : String)
    (st : Storage) : MemState × Storage :=
  if mem.lastTabId.isNone && mem.lastDomain.isNone then
    match st.pendingSession with
    | some pending =>
      match pending.domain, pending.start, pending.windowId with
      | some pd, some ps, some pw =>
        if pw ≠ windowId ∧ pendingWindowGone then
          let ov : SessionOverride :=
            { domain := some pd, start := some ps, persistedAt := pending.persistedAt,
              tabIdToCheck := none,
              wasIncognito := some (pending.wasIncognito ≠ some false) }
          let res := endSession (some ov) settings now key mem st
          (res.1, { res.2 with pendingSession := none })
        else (mem, st)
      | _, _, _ => (mem, st)
    | none => (mem, st)
  else (mem, st)

/-! Concrete fixtures used by the scenario theorems, counterexamples and
witnesses. -/

/-- Default-like settings: nothing excluded, granularity 1000 ms, incognito
retention off (the conservative default of getSettings). -/
def settings1000 : Settings :=
  { excludeDomains := [], timeGranularityMs := 1000, keepIncognitoData := false }

/-- Settings whose exclusion list contains example.com. -/
def settingsExcl : Settings :=
  { excludeDomains := [JSVal.str "example.com"], timeGranularityMs := 1000,
    keepIncognitoData := false }

/-- Empty storage: no days, no live indicator, no pending marker. -/
def storage0 : Storage :=
  { days := fun _ => emptyDay, currentSession := none, pendingSession := none }

/-- In-memory state of a session on example.com started at t0 = 0 (so
lastPersistedAt = 0 as well), with no stop in flight. -/
def flushMem0 : MemState :=
  { lastDomain := some "example.com", lastStartTimestamp := some 0,
    lastPersistedAt := some 0, lastTabId := some 1, lastTabIncognito := false,
    lastTrackedWindowId := some 2, pendingWrite := none }

/-- Same session but recorded from an incognito tab. -/
def incogMem0 : MemState :=
  { flushMem0 with lastTabIncognito := true }

/-- In-memory state with no session at all (fresh service worker). -/
def emptyMem : MemState :=
  { lastDomain := none, lastStartTimestamp := none, lastPersistedAt := none,
    lastTabId := none, lastTabIncognito := false, lastTrackedWindowId := none,
    pendingWrite := none }

/-- Durable marker of a non-incognito session interrupted by a crash: the
session started at 0 and the running total had last been flushed at
61000 ms. -/
def crashMarker : PendingSession :=
  { domain := some "example.com", start := some 0, persistedAt := some 61000,
    windowId := some 5, wasIncognito := some false }

/-- Storage as found on restart after the crash: only the marker set. -/
def crashStorage : Storage :=
  { days := fun _ => emptyDay, currentSession := none,
    pendingSession := some crashMarker }

/-- Storage holding a live currentSession indicator for example.com. -/
def liveStorage : Storage :=
  { days := fun _ => emptyDay,
    currentSession := some { domain := "example.com", start := 0 },
    pendingSession := none }

/-! Helper lemmas. -/

theorem jsIsTrue_iff : ∀ v : JSVal, jsIsTrue v = true ↔ v = JSVal.bool true
  | .null => by simp [jsIsTrue]
  | .undefined => by simp [jsIsTrue]
  | .bool true => by simp [jsIsTrue]
  | .bool false => by simp [jsIsTrue]
  | .num _ => by simp [jsIsTrue]
  | .str _ => by simp [jsIsTrue]
  | .arr _ => by simp [jsIsTrue]
  | .obj _ => by simp [jsIsTrue]

/-! Claims. -/

/-- Claim C9: roundMs is idempotent; granularity ≤ 0 (including 0) is
pass-through; positive granularity rounds down to a multiple via floor
division. -/
theorem c9_roundMs_idempotent_passthrough (x g : Int) :
    roundMs (roundMs x g) g = roundMs x g ∧
    (g ≤ 0 → roundMs x g = x) ∧
    (0 < g → roundMs x g = (Int.fdiv x g) * g) := by
  refine ⟨?_, ?_, ?_⟩
  · by_cases h : g ≤ 0
    · simp [roundMs, h]
    · have hne : g ≠ 0 := by omega
      simp [roundMs, h, Int.mul_fdiv_cancel _ hne]
  · intro h
    simp [roundMs, h]
  · intro h
    have h' : ¬ g ≤ 0 := by omega
    simp [roundMs, h']

/-- Witness for C9 at x = 1234, g = 1000. -/
theorem c9_roundMs_witness :
    (0 : Int) < 1000 ∧ roundMs 1234 1000 = (Int.fdiv 1234 1000) * 1000 :=
  ⟨by decide, (c9_roundMs_idempotent_passthrough 1234 1000).2.2 (by decide)⟩

/-- Claim C8: domain classification — falsy and internal/browser-scheme URLs and
URLs that fail to parse give null; every other URL gives its hostname with
a leading www. stripped (null when that leaves nothing); and the four
concrete examples of the spec. -/
theorem c8_hostnameFromUrl_classification (url : String) :
    ((url = "" ∨ isInternalUrl url = true) → hostnameFromUrl url = none) ∧
    (parseUrlHost url = none → hostnameFromUrl url = none) ∧
    (∀ h, url ≠ "" → isInternalUrl url = false → parseUrlHost url = some h →
      hostnameFromUrl url = (if stripWww h = "" then none else some (stripWww h))) ∧
    hostnameFromUrl "https://www.youtube.com/watch?v=1" = some "youtube.com" ∧
    hostnameFromUrl "https://github.com/foo" = some "github.com" ∧
    hostnameFromUrl "chrome://extensions" = none ∧
    hostnameFromUrl "" = none := by
  refine ⟨?_, ?_, ?_, by decide, by decide, by decide, by decide⟩
  · rintro (h | h)
    · simp [hostnameFromUrl, h]
    · by_cases he : url = "" <;> simp [hostnameFromUrl, he, h]
  · intro hp
    by_cases he : url = ""
    · simp [hostnameFromUrl, he]
    · by_cases hi : isInternalUrl url <;> simp [hostnameFromUrl, he, hi, hp]
  · intro h hne hint hp
    simp [hostnameFromUrl, hne, hint, hp]

/-- Witness for C8 at a parsable non-internal URL. -/
theorem c8_hostnameFromUrl_witness :
    "https://a.org/x" ≠ "" ∧ isInternalUrl "https://a.org/x" = false ∧
    parseUrlHost "https://a.org/x" = some "a.org" ∧
    hostnameFromUrl "https://a.org/x" =
      (if stripWww "a.org" = "" then none else some (stripWww "a.org")) :=
  ⟨by decide, by decide, by decide,
   (c8_hostnameFromUrl_classification "https://a.org/x").2.2.1 "a.org"
     (by decide) (by decide) (by decide)⟩

/-- Claim C10: getSettings is total over arbitrary stored values and sanitises
them — excludeDomains is the stored array or [], timeGranularityMs is the
stored number or 1000, and keepIncognitoData is true exactly when the
stored field is the boolean true; missing, null and wrongly typed settings
all collapse to the conservative defaults. -/
theorem c10_getSettings_total_defaults (stored : Option JSVal) :
    (getSettings stored).excludeDomains =
      (jsArrVal (jsGet (effectiveSettings stored) "excludeDomains")).getD [] ∧
    (getSettings stored).timeGranularityMs =
      (jsNumVal (jsGet (effectiveSettings stored) "timeGranularityMs")).getD DEFAULT_GRANULARITY_MS ∧
    ((getSettings stored).keepIncognitoData = true ↔
      jsGet (effectiveSettings stored) "keepIncognitoData" = JSVal.bool true) ∧
    getSettings none =
      { excludeDomains := [], timeGranularityMs := 1000, keepIncognitoData := false } ∧
    getSettings (some JSVal.null) =
      { excludeDomains := [], timeGranularityMs := 1000, keepIncognitoData := false } ∧
    getSettings (some (JSVal.obj
        [("excludeDomains", JSVal.str "x"), ("timeGranularityMs", JSVal.str "5"),
         ("keepIncognitoData", JSVal.num 1)])) =
      { excludeDomains := [], timeGranularityMs := 1000, keepIncognitoData := false } := by
  refine ⟨?_, ?_, ?_, rfl, rfl, rfl⟩
  · cases hv : jsGet (effectiveSettings stored) "excludeDomains" <;>
      simp [getSettings, jsArrVal, hv]
  · cases hv : jsGet (effectiveSettings stored) "timeGranularityMs" <;>
      simp [getSettings, jsNumVal, hv]
  · have : (getSettings stored).keepIncognitoData =
        jsIsTrue (jsGet (effectiveSettings stored) "keepIncognitoData") := rfl
    rw [this]
    exact jsIsTrue_iff _

/-- Witness for C10: a stored object whose flag is exactly true is kept,
and the concrete defaults hold. -/
theorem c10_getSettings_witness :
    (getSettings (some (JSVal.obj [("keepIncognitoData", JSVal.bool true)]))).keepIncognitoData = true :=
  ((c10_getSettings_total_defaults
    (some (JSVal.obj [("keepIncognitoData", JSVal.bool true)]))).2.2.1).mpr rfl

/-- Claim C1: evaluation of the code at the claim's scenario.  For a session
started at t0 = 0 with granularity 1000 ms, flushing at 500 ms and again at
1000 ms adds zero to the cumulative total — not the one ~1000 ms increment
the claim states — because the delta ≤ 0 branch of persistRunningTotal
advances lastPersistedAt even when nothing was added, discarding the
sub-granularity remainder at each flush. -/
theorem c1_two_flushes_500ms_apart_add_zero :
    (let f1 := persistRunningTotal flushMem0 settings1000 500 "2026-01-01" storage0
     let f2 := persistRunningTotal f1.1 settings1000 1000 "2026-01-01" f1.2
     f1.1.lastPersistedAt = some 500 ∧
     f2.1.lastPersistedAt = some 1000 ∧
     f2.2 = storage0 ∧
     (f2.2.days "2026-01-01").domains "example.com" = 0 ∧
     f2.1.lastStartTimestamp = some 0) :=
  ⟨rfl, rfl, rfl, rfl, rfl⟩

/-- Claim C4: evaluation of the crash-recovery path at a concrete interrupted
session.  The marker records a non-incognito session started at 0 whose
last flush was at 61000 ms; recovery runs at wall clock 1000000000 ms with
that window gone.  The code then adds roundMs(1000000000 − 61000) =
999939000 ms to the day's total and appends a block ending at 1000000000 —
attributing all the time between the crash and the recovery, where the
claim says time is attributed only up to the last known flush (61000). -/
theorem c4_recovery_attributes_post_crash_time :
    (let res := handleActiveTabRecovery emptyMem 7 true settings1000 1000000000
        "2026-01-02" crashStorage
     (res.2.days "2026-01-02").domains "example.com" = 999939000 ∧
     (res.2.days "2026-01-02").timeline =
       [{ start := 0, «end» := 1000000000, domain := "example.com" }] ∧
     res.2.pendingSession = none ∧
     res.2.currentSession = none) :=
  ⟨rfl, rfl, rfl, rfl⟩

/-- Claim C3: for a trackable, persistable session, the completion of endSession
appends exactly one timeline block spanning the captured original start to
the exact (unrounded) current time, leaves every other day untouched, adds
to the domain's counter exactly the rounded delta since the captured
lastPersistedAt (falling back to start), leaves every other domain's
counter untouched, and clears both durable markers.  Block spans exact,
counters quantized. -/
theorem c3_endSession_exact_block_rounded_increment
    (r : ResolvedSession) (settings : Settings) (now : Int) (key : String)
    (mem : MemState) (st : Storage)
    (htrack : shouldTrack (some r.domain) settings.excludeDomains = true)
    (hpriv : settings.keepIncognitoData = true ∨ r.wasIncognito = false) :
    (let res := endSessionFinish r settings now key mem st
     let inc := roundMs (now - (r.persistedAt.getD r.start)) settings.timeGranularityMs
     (res.2.days key).timeline =
       (st.days key).timeline ++ [{ start := r.start, «end» := now, domain := r.domain }] ∧
     (∀ k, k ≠ key → res.2.days k = st.days k) ∧
     (res.2.days key).domains r.domain =
       (st.days key).domains r.domain + (if 0 < inc then inc else 0) ∧
     (∀ d', d' ≠ r.domain → (res.2.days key).domains d' = (st.days key).domains d') ∧
     res.2.currentSession = none ∧
     res.2.pendingSession = none) := by
  have hguard : (!settings.keepIncognitoData && r.wasIncognito) = false := by
    rcases hpriv with h | h <;> simp [h]
  refine ⟨?_, ?_, ?_, ?_, ?_, ?_⟩
  · simp [endSessionFinish, htrack, hguard]
  · intro k hk
    simp [endSessionFinish, htrack, hguard, hk]
  · by_cases hpos : 0 < roundMs (now - (r.persistedAt.getD r.start)) settings.timeGranularityMs <;>
      simp [endSessionFinish, htrack, hguard, hpos, addMs, gt_iff_lt]
  · intro d' hd'
    by_cases hpos : 0 < roundMs (now - (r.persistedAt.getD r.start)) settings.timeGranularityMs <;>
      simp [endSessionFinish, htrack, hguard, hpos, addMs, hd', gt_iff_lt]
  · simp [endSessionFinish, htrack, hguard]
  · simp [endSessionFinish, htrack, hguard]

/-- Witness for C3 at a concrete persistable session. -/
theorem c3_endSession_witness :
    shouldTrack (some "example.com") settings1000.excludeDomains = true ∧
    (let res := endSessionFinish
        { domain := "example.com", start := 0, persistedAt := some 0, wasIncognito := false }
        settings1000 5000 "2026-01-01" emptyMem storage0
     res.2.currentSession = none ∧ res.2.pendingSession = none) :=
  ⟨by decide,
   ⟨(c3_endSession_exact_block_rounded_increment
      { domain := "example.com", start := 0, persistedAt := some 0, wasIncognito := false }
      settings1000 5000 "2026-01-01" emptyMem storage0 (by decide) (Or.inr rfl)).2.2.2.2.1,
    (c3_endSession_exact_block_rounded_increment
      { domain := "example.com", start := 0, persistedAt := some 0, wasIncognito := false }
      settings1000 5000 "2026-01-01" emptyMem storage0 (by decide) (Or.inr rfl)).2.2.2.2.2⟩⟩

/-- Claim C2: stopTracking is idempotent and coalescing.  With no active session
it returns null and has no effect; with a session active and a stop already
in flight it returns that same pending operation and changes nothing; and
in the two-concurrent-stops interleaving — first stop runs its synchronous
part (capturing the session, clearing the in-memory state through
endSession's synchronous prefix and recording the in-flight operation),
then a second stop runs before the first completes, then the single
completion executes — the second stop is a no-op, exactly one timeline
block spanning the original start to the stop time is appended, the
counter gains the rounded start-to-stop increment exactly once, and
pendingWrite ends cleared. -/
theorem c2_stopTracking_idempotent_coalescing
    (d : String) (s p : Int) (tid : Option Int) (incog : Bool) (twid : Option Int)
    (settings : Settings) (now : Int) (key : String) (st : Storage)
    (htrack : shouldTrack (some d) settings.excludeDomains = true)
    (hpriv : settings.keepIncognitoData = true ∨ incog = false) :
    (∀ mem : MemState, (mem.lastDomain = none ∨ mem.lastStartTimestamp = none) →
        stopTracking mem = (mem, .noSession)) ∧
    (∀ (mem : MemState) (r : ResolvedSession),
        mem.lastDomain.isSome = true → mem.lastStartTimestamp.isSome = true →
        mem.pendingWrite = some r → stopTracking mem = (mem, .alreadyPending r)) ∧
    (let mem0 : MemState :=
       { lastDomain := some d, lastStartTimestamp := some s, lastPersistedAt := some p,
         lastTabId := tid, lastTabIncognito := incog, lastTrackedWindowId := twid,
         pendingWrite := none }
     let r : ResolvedSession :=
       { domain := d, start := s, persistedAt := some p, wasIncognito := incog }
     let step1 := stopTracking mem0
     step1.2 = .started r ∧
     step1.1.lastDomain = none ∧
     step1.1.lastStartTimestamp = none ∧
     step1.1.pendingWrite = some r ∧
     stopTracking step1.1 = (step1.1, .noSession) ∧
     (let fin := stopTrackingFinish r settings now key step1.1 st
      (fin.2.days key).timeline =
        (st.days key).timeline ++ [{ start := s, «end» := now, domain := d }] ∧
      (fin.2.days key).domains d = (st.days key).domains d +
        (if 0 < roundMs (now - p) settings.timeGranularityMs
         then roundMs (now - p) settings.timeGranularityMs else 0) ∧
      fin.1.pendingWrite = none)) := by
  have hguard : (!settings.keepIncognitoData && incog) = false := by
    rcases hpriv with h | h <;> simp [h]
  refine ⟨?_, ?_, rfl, rfl, rfl, rfl, rfl, ?_, ?_, rfl⟩
  · intro mem h
    rcases h with h | h
    · cases hs' : mem.lastStartTimestamp <;> simp [stopTracking, h, hs']
    · cases hd' : mem.lastDomain <;> simp [stopTracking, h, hd']
  · intro mem r h1 h2 h3
    rw [Option.isSome_iff_exists] at h1 h2
    obtain ⟨d', hd'⟩ := h1
    obtain ⟨s', hs'⟩ := h2
    simp [stopTracking, hd', hs', h3]
  · simp [stopTracking, stopTrackingFinish, endSessionSync, endSessionFinish,
      htrack, hguard]
  · simp only [stopTracking, stopTrackingFinish, endSessionSync, endSessionFinish,
      htrack, hguard]
    by_cases hpos : 0 < roundMs (now - p) settings.timeGranularityMs <;>
      simp [hpos, addMs, gt_iff_lt]

/-- Witness for C2 at a concrete session and stop time. -/
theorem c2_stopTracking_witness :
    shouldTrack (some "example.com") settings1000.excludeDomains = true ∧
    stopTracking emptyMem = (emptyMem, .noSession) :=
  ⟨by decide,
   (c2_stopTracking_idempotent_coalescing "example.com" 0 0 (some 1) false none
      settings1000 5000 "2026-01-01" storage0 (by decide) (Or.inr rfl)).1
     emptyMem (Or.inl rfl)⟩

/-- Claim C5 counterexample: an incognito session with keepIncognitoData off is
NOT cleared by the next flush — persistRunningTotal returns with the
session intact (lastDomain still set) and storage untouched, where the
claim states the next flush clears the session. -/
theorem c5_incognito_flush_keeps_session :
    (let res := persistRunningTotal incogMem0 settings1000 5000 "2026-01-01" storage0
     res.1.lastDomain = some "example.com" ∧
     res.1 = incogMem0 ∧
     res.2 = storage0) :=
  ⟨rfl, rfl, rfl⟩

/-- Claim C5 amended: a domain excluded mid-session makes the next flush clear
the session (and the live indicator) without writing a block or any time;
an incognito session with retention off is skipped by the flush —
discarded, but without clearing the in-memory session; and the stop path
discards in both situations, writing neither a block nor any time. -/
theorem c5_flush_stop_discard_amended
    (d : String) (s : Int) (mem : MemState) (settings : Settings) (now : Int)
    (key : String) (st : Storage)
    (hd : mem.lastDomain = some d) (hs : mem.lastStartTimestamp = some s) :
    (shouldTrack (some d) settings.excludeDomains = false →
       (let res := persistRunningTotal mem settings now key st
        res.1.lastDomain = none ∧ res.1.lastStartTimestamp = none ∧
        res.1.lastPersistedAt = none ∧ res.1.lastTabId = none ∧
        res.2.days = st.days ∧ res.2.currentSession = none ∧
        res.2.pendingSession = st.pendingSession)) ∧
    (shouldTrack (some d) settings.excludeDomains = true →
       settings.keepIncognitoData = false → mem.lastTabIncognito = true →
       persistRunningTotal mem settings now key st = (mem, st)) ∧
    (∀ r : ResolvedSession, shouldTrack (some r.domain) settings.excludeDomains = false →
       endSessionFinish r settings now key mem st = (mem, st)) ∧
    (∀ r : ResolvedSession, shouldTrack (some r.domain) settings.excludeDomains = true →
       settings.keepIncognitoData = false → r.wasIncognito = true →
       endSessionFinish r settings now key mem st = ({ mem with pendingWrite := none }, st)) := by
  refine ⟨?_, ?_, ?_, ?_⟩
  · intro hex
    simp [persistRunningTotal, hd, hs, hex]
  · intro htr hkeep hincog
    simp [persistRunningTotal, hd, hs, htr, hkeep, hincog]
  · intro r hex
    simp [endSessionFinish, hex]
  · intro r htr hkeep hincog
    simp [endSessionFinish, htr, hkeep, hincog]

/-- Witness for C5's amended theorem: concrete excluded-domain flush. -/
theorem c5_discard_witness :
    shouldTrack (some "example.com") settingsExcl.excludeDomains = false ∧
    (persistRunningTotal flushMem0 settingsExcl 5000 "2026-01-01" liveStorage).2.currentSession = none :=
  ⟨by decide,
   ((c5_flush_stop_discard_amended "example.com" 0 flushMem0 settingsExcl 5000
      "2026-01-01" liveStorage rfl rfl).1 (by decide)).2.2.2.2.2.1⟩

/-- Claim C6: frame effect of the periodic flush.  For an active trackable
session it leaves the session's domain, start, tab id, incognito flag and
tracked window unchanged, changes no timeline of any day, no other day and
no other domain's counter, and leaves the live indicator and the pending
marker alone; with no active session it is the identity on both the
in-memory state and storage. -/
theorem c6_flush_frame
    (d : String) (s : Int) (mem : MemState) (settings : Settings) (now : Int)
    (key : String) (st : Storage)
    (hd : mem.lastDomain = some d) (hs : mem.lastStartTimestamp = some s)
    (htrack : shouldTrack (some d) settings.excludeDomains = true) :
    (let res := persistRunningTotal mem settings now key st
     res.1.lastDomain = some d ∧
     res.1.lastStartTimestamp = some s ∧
     res.1.lastTabId = mem.lastTabId ∧
     res.1.lastTabIncognito = mem.lastTabIncognito ∧
     res.1.lastTrackedWindowId = mem.lastTrackedWindowId ∧
     (∀ k, (res.2.days k).timeline = (st.days k).timeline) ∧
     (∀ k, k ≠ key → res.2.days k = st.days k) ∧
     (∀ d', d' ≠ d → (res.2.days key).domains d' = (st.days key).domains d') ∧
     res.2.currentSession = st.currentSession ∧
     res.2.pendingSession = st.pendingSession) ∧
    (∀ (mem' : MemState) (st' : Storage),
       (mem'.lastDomain = none ∨ mem'.lastStartTimestamp = none) →
       persistRunningTotal mem' settings now key st' = (mem', st')) := by
  constructor
  · by_cases hb : (!settings.keepIncognitoData && mem.lastTabIncognito) = true
    · refine ⟨?_, ?_, ?_, ?_, ?_, ?_, ?_, ?_, ?_, ?_⟩ <;>
        simp [persistRunningTotal, hd, hs, htrack, hb]
    · rw [Bool.not_eq_true] at hb
      by_cases hdel : roundMs (now - mem.lastPersistedAt.getD s) settings.timeGranularityMs ≤ 0
      · refine ⟨?_, ?_, ?_, ?_, ?_, ?_, ?_, ?_, ?_, ?_⟩ <;>
          simp [persistRunningTotal, hd, hs, htrack, hb, hdel]
      · refine ⟨?_, ?_, ?_, ?_, ?_, ?_, ?_, ?_, ?_, ?_⟩ <;>
          simp [persistRunningTotal, hd, hs, htrack, hb, hdel, addMs]
        · intro k
          by_cases hk : k = key <;> simp [hk]
        · intro k hk
          simp [hk]
        · intro d' hd'
          simp [hd']
  · intro mem' st' h
    rcases h with h | h
    · cases hs' : mem'.lastStartTimestamp <;> simp [persistRunningTotal, h, hs']
    · cases hd' : mem'.lastDomain <;> simp [persistRunningTotal, h, hd']

/-- Witness for C6 at a concrete active trackable session. -/
theorem c6_flush_frame_witness :
    shouldTrack (some "example.com") settings1000.excludeDomains = true ∧
    (persistRunningTotal flushMem0 settings1000 5000 "2026-01-01" liveStorage).2.currentSession
      = liveStorage.currentSession :=
  ⟨by decide,
   ((c6_flush_frame "example.com" 0 flushMem0 settings1000 5000 "2026-01-01"
      liveStorage rfl rfl (by decide)).1).2.2.2.2.2.2.2.2.1⟩

/-- Claim C7 counterexample: a stop of a session whose domain has meanwhile been
excluded completes while leaving the stored currentSession indicator
exactly as it was — still naming example.com — where the claim states the
indicator is cleared by every stop and after any stop-path operation no
stale live session remains in storage. -/
theorem c7_discarding_stop_leaves_live_indicator :
    (let step := stopTracking flushMem0
     let r : ResolvedSession :=
       { domain := "example.com", start := 0, persistedAt := some 0, wasIncognito := false }
     let fin := stopTrackingFinish r settingsExcl 5000 "2026-01-01" step.1 liveStorage
     step.2 = .started r ∧
     fin.2.currentSession = some { domain := "example.com", start := 0 } ∧
     fin.2 = liveStorage) :=
  ⟨rfl, rfl, rfl⟩

/-- Claim C7 amended: the currentSession indicator is written by every
successful start (along with the pending marker); a stop that persists
clears the indicator and the marker as part of the same write; the
periodic flush clears the indicator when it finds the session's domain
excluded; but a stop that discards — excluded domain, or incognito with
retention off — leaves storage, including the indicator, unchanged. -/
theorem c7_live_indicator_amended
    (settings : Settings) (hostname : String) (tabId : Option Int)
    (tabInfo : Option TabInfo) (now : Int) (key : String)
    (mem : MemState) (st : Storage) :
    (shouldTrack (some hostname) settings.excludeDomains = true →
       (let res := startTracking mem settings hostname tabId tabInfo now st
        res.2.currentSession = some { domain := hostname, start := now } ∧
        res.2.pendingSession.isSome = true)) ∧
    (shouldTrack (some hostname) settings.excludeDomains = false →
       startTracking mem settings hostname tabId tabInfo now st = (mem, st)) ∧
    (∀ r : ResolvedSession, shouldTrack (some r.domain) settings.excludeDomains = true →
       (settings.keepIncognitoData = true ∨ r.wasIncognito = false) →
       (endSessionFinish r settings now key mem st).2.currentSession = none ∧
       (endSessionFinish r settings now key mem st).2.pendingSession = none) ∧
    (∀ d, mem.lastDomain = some d → mem.lastStartTimestamp.isSome = true →
       shouldTrack (some d) settings.excludeDomains = false →
       (persistRunningTotal mem settings now key st).2.currentSession = none) ∧
    (∀ r : ResolvedSession, shouldTrack (some r.domain) settings.excludeDomains = false →
       (endSessionFinish r settings now key mem st).2 = st) ∧
    (∀ r : ResolvedSession, shouldTrack (some r.domain) settings.excludeDomains = true →
       settings.keepIncognitoData = false → r.wasIncognito = true →
       (endSessionFinish r settings now key mem st).2 = st) := by
  refine ⟨?_, ?_, ?_, ?_, ?_, ?_⟩
  · intro htr
    constructor <;> simp [startTracking, htr]
  · intro htr
    simp [startTracking, htr]
  · intro r htr hpriv
    have hguard : (!settings.keepIncognitoData && r.wasIncognito) = false := by
      rcases hpriv with h | h <;> simp [h]
    constructor <;> simp [endSessionFinish, htr, hguard]
  · intro d hd hs htr
    rw [Option.isSome_iff_exists] at hs
    obtain ⟨s, hs'⟩ := hs
    simp [persistRunningTotal, hd, hs', htr]
  · intro r htr
    simp [endSessionFinish, htr]
  · intro r htr hkeep hincog
    simp [endSessionFinish, htr, hkeep, hincog]

/-- Witness for C7's amended theorem: a concrete successful start writes
the live indicator. -/
theorem c7_live_indicator_witness :
    shouldTrack (some "example.com") settings1000.excludeDomains = true ∧
    (startTracking emptyMem settings1000 "example.com" (some 3)
       (some { incognito := false, windowId := some 9 }) 42 storage0).2.currentSession
      = some { domain := "example.com", start := 42 } :=
  ⟨by decide,
   ((c7_live_indicator_amended settings1000 "example.com" (some 3)
      (some { incognito := false, windowId := some 9 }) 42 "2026-01-01"
      emptyMem storage0).1 (by decide)).1⟩

end TimeTracker
